import Mathlib

/-!
# Verification of the SLAITED session progression engine

Shallow embedding of the session progression core of the SLAITED repository
(`chat/views.py`, `chat/ai_utils.py`, `chat/models.py`): the phase/skill/source
state machine, evidence accumulation, mastery gating, conversation-history
windowing, and the turn handlers `student_response`, `start_session` and
`advance_phase`.

The two external collaborators are modelled, as the design document prescribes,
as black-box oracles passed to the handlers:
* the generation collaborator (`call_model` plus the OpenAI client) becomes
  `gen : GenCall → Option String`, where `GenCall` is exactly the argument
  tuple the views pass to `call_model`, and `none` models a `GenerationError`;
* the judgment collaborator (the model call inside `evaluate_skill_mastery`)
  becomes `judge : String → String → List String → Option String →
  Option MasteryResult` over (skill, proficiency, evidence, excerpt), with
  `none` modelling a `JudgmentError` / unparseable verdict.

Python dict/JSON state is modelled with explicit structures; the
`skill_evidence` JSON object is an insertion-ordered association list, and the
Django `Message` table is the chronologically ordered list `Session.messages`.
The handlers return the committed database state explicitly, so a collaborator
failure (`none`) reveals exactly which writes had already been persisted.
-/

/-- One OpenAI-format chat message, as built by `build_conversation_history`. -/
structure Chat where
  role : String
  content : String
deriving DecidableEq

/-- A persisted `Message` row: `request` fields flattened
(`message`, `phase`, optional `source_index` / `skill_index`) plus the
`response` message text. `reqMessage = none` models a JSON `null` student
message (system-initiated turn), distinct from the empty string. -/
structure Msg where
  reqMessage : Option String
  reqPhase : String
  reqSourceIndex : Option Nat
  reqSkillIndex : Option Nat
  respMessage : String
deriving DecidableEq

/-- One source dict of `GeneratedAssignment.sources`. -/
structure SourceDoc where
  title : String
  author : String
  year : String
  text : String
deriving DecidableEq

/-- The fields of `AssignmentRequirement` the progression core reads. -/
structure Requirement where
  topic : String
  guiding_question : String
  student_proficiency : String
  skills_to_target : List String
deriving DecidableEq

/-- The fields of `GeneratedAssignment` the progression core reads. -/
structure Assignment where
  requirement : Requirement
  sources : List SourceDoc
deriving DecidableEq

/-- The `session_data` JSON blob of `StudentInteractionSession`, with the
defaults the views apply on read (`.get(key, default)`) built in. -/
structure SessionData where
  current_phase : String
  source_index : Nat
  skill_index : Nat
  skill_evidence : List (String × List String)
  questions_asked_this_skill : Nat
deriving DecidableEq

/-- A session row together with its assignment and its transcript
(`Message` rows in `created_at` order). -/
structure Session where
  assignment : Assignment
  data : SessionData
  messages : List Msg
deriving DecidableEq

/-- The argument tuple of every `call_model(...)` call site in the views. -/
structure GenCall where
  messages_history : List Chat
  include_skills : Bool
  include_context : Bool
  session_context : Option String
deriving DecidableEq

/-- Parsed verdict of the judgment collaborator
(`is_mastered` / `reasoning` JSON fields). -/
structure MasteryResult where
  is_mastered : Bool
  reasoning : String
deriving DecidableEq

/-- Python `pat in s` substring test, on the character lists of the strings. -/
def strContains (s pat : String) : Bool :=
  decide (pat.data <:+: s.data)

/-- Python `s.strip()`: drop whitespace from both ends, structurally over the
character list. -/
def pyStrip (s : String) : String :=
  ⟨((s.data.dropWhile Char.isWhitespace).reverse.dropWhile Char.isWhitespace).reverse⟩

/-- Python `s.lower()` (ASCII-relevant case folding, character by character). -/
def lowerStr (s : String) : String :=
  ⟨s.data.map Char.toLower⟩

/-- The evidence key `f"{source_index}_{skill_index}"`. -/
def evKey (source_index skill_index : Nat) : String :=
  toString source_index ++ "_" ++ toString skill_index

/-- `session_data.get("skill_evidence", {}).get(key, [])`. -/
def evidenceGet (ev : List (String × List String)) (key : String) : List String :=
  match ev.find? (fun p => p.1 == key) with
  | some p => p.2
  | none => []

/-- Whether the evidence dict has an entry for `key`. -/
def evidenceHas (ev : List (String × List String)) (key : String) : Bool :=
  ev.any (fun p => p.1 == key)

/-- `skill_evidence.setdefault(key, []); skill_evidence[key].append(msg)`:
append to the entry when the key exists, otherwise insert a fresh singleton
entry at the end (dict insertion order). -/
def evidenceAppend (ev : List (String × List String)) (key msg : String) :
    List (String × List String) :=
  if evidenceHas ev key then
    ev.map (fun p => if p.1 == key then (p.1, p.2 ++ [msg]) else p)
  else
    ev ++ [(key, [msg])]

/-- `ai_utils.should_include_context`: true when the lowercased skill name
contains `context` or `sourcing`. -/
def should_include_context (skill : String) : Bool :=
  let skill_lower := lowerStr skill
  strContains skill_lower "context" || strContains skill_lower "sourcing"

/-- `ai_utils.evaluate_skill_mastery`: on empty evidence, return the fixed
not-mastered verdict without consulting the judgment collaborator; otherwise
delegate to the collaborator (modelled as the `judge` oracle over the same
data the prompt is built from: skill, proficiency, evidence, excerpt). -/
def evaluate_skill_mastery
    (judge : String → String → List String → Option String → Option MasteryResult)
    (skill proficiency : String) (evidence : List String)
    (conversation_excerpt : Option String) : Option MasteryResult :=
  if evidence = [] then
    some { is_mastered := false,
           reasoning := "No evidence yet - student hasn\x27t engaged with the skill." }
  else
    judge skill proficiency evidence conversation_excerpt

/-- The per-message flattening step of `build_conversation_history`: a user
entry when the request message is truthy, then an assistant entry when the
response message is truthy. -/
def msgToChats (m : Msg) : List Chat :=
  (match m.reqMessage with
   | some u => if u ≠ "" then [{ role := "user", content := u }] else []
   | none => []) ++
  (if m.respMessage ≠ "" then [{ role := "assistant", content := m.respMessage }] else [])

/-- The transition-marker test in `build_conversation_history`: a
`source_loop` message with no (JSON-null) student message whose tagged
indices equal the current ones. -/
def isSkillStartMsg (source_index skill_index : Nat) (m : Msg) : Bool :=
  m.reqPhase == "source_loop" && m.reqMessage == none &&
    m.reqSourceIndex == some source_index && m.reqSkillIndex == some skill_index

/-- `ai_utils.build_conversation_history`: full transcript flattened to chat
entries; when limited to the current skill and the phase is `source_loop`,
start from the first transition marker matching the current indices
(fall back to the full transcript when none exists). -/
def build_conversation_history (session : Session) (limit_to_current_skill : Bool) :
    List Chat :=
  let messages := session.messages
  let messages :=
    if limit_to_current_skill && session.data.current_phase == "source_loop" then
      match messages.findIdx?
          (isSkillStartMsg session.data.source_index session.data.skill_index) with
      | some i => messages.drop i
      | none => messages
    else messages
  (messages.map msgToChats).flatten

/-- `ai_utils.get_recent_conversation_excerpt`: the last `num_exchanges * 2`
messages in chronological order, each contributing an `AI:` line then a
`Student:` line when the respective text is truthy; `none` when nothing
qualifies. -/
def get_recent_conversation_excerpt (session : Session) (num_exchanges : Nat) :
    Option String :=
  let msgs := (session.messages.reverse.take (num_exchanges * 2)).reverse
  let excerpt_parts :=
    (msgs.map (fun m =>
      (if m.respMessage ≠ "" then ["AI: " ++ m.respMessage] else []) ++
      (match m.reqMessage with
       | some u => if u ≠ "" then ["Student: " ++ u] else []
       | none => []))).flatten
  if excerpt_parts = [] then none else some (String.intercalate "\n" excerpt_parts)

/-- The `skill_definitions` dict of the intro branch of `advance_phase`
(`dict.get(skill, "")`). -/
def skillDefinitions (skill : String) : String :=
  if skill = "Comprehension" then
    "Establish a literal, accurate understanding of what the source explicitly states."
  else if skill = "Contextualization" then
    "Place the source within its historical time, place, and conditions."
  else if skill = "Sourcing" then
    "Analyze the author, date, audience, and perspective."
  else if skill = "Claim/Evidence" then
    "Make a historical claim about the guiding question using the source, providing textual evidence."
  else if skill = "Evaluation" then
    "Assess the usefulness and limitations of the source for answering the guiding question."
  else ""

/-- `ai_utils.build_session_context`: the rendered current-state description
appended to the system prompt. -/
def build_session_context (session : Session) (is_phase_transition : Bool) : String :=
  let phase := session.data.current_phase
  let requirement := session.assignment.requirement
  let lines := [
    "Topic: " ++ requirement.topic,
    "Guiding Question: " ++ requirement.guiding_question,
    "Student Proficiency: " ++ requirement.student_proficiency,
    "Current Phase: " ++ phase]
  let lines :=
    if phase = "intro" then
      lines ++ [
        "\n[INTRO PHASE GUIDANCE]",
        "Welcome the student warmly and introduce yourself as their AI guide.",
        "Mention the guiding question they\x27ll explore.",
        "Keep it brief and friendly - they\x27ll click \x27Ready to Begin\x27 when ready."]
    else if phase = "source_loop" then
      let sources := session.assignment.sources
      let skills := requirement.skills_to_target
      let source_index := session.data.source_index
      let skill_index := session.data.skill_index
      if source_index ≥ sources.length then
        lines ++ [
          "\n[ALL SOURCES COMPLETE]",
          "The student has completed all sources. Congratulate them!"]
      else if skill_index ≥ skills.length then
        lines ++ ["\n[ERROR: Skill index out of bounds]"]
      else
        let current_source := sources.getD source_index ⟨"", "", "", ""⟩
        let current_skill := skills.getD skill_index ""
        let lines := lines ++ [
          "\n[CURRENT TASK]",
          "Source: " ++ toString (source_index + 1) ++ " of " ++ toString sources.length,
          "Skill: " ++ current_skill ++ " (skill " ++ toString (skill_index + 1) ++
            " of " ++ toString skills.length ++ ")",
          "\nSource Information:",
          "  Title: " ++ current_source.title,
          "  Author: " ++ current_source.author,
          "  Year: " ++ current_source.year,
          "\nSource Text:",
          "  \"" ++ current_source.text ++ "\"",
          "\n[YOUR TASK]"]
        let lines :=
          if is_phase_transition then
            if skill_index = 0 then
              lines ++ [
                "You are introducing a NEW source: Source " ++ toString (source_index + 1) ++ ".",
                "Present the source metadata (title, author, year) and ask the student to read the source."]
            else
              lines ++ [
                "You are introducing a new skill \x27" ++ current_skill ++
                  "\x27 for the current source.: " ++ toString (source_index + 1)]
          else
            let q_count := session.data.questions_asked_this_skill
            let lines := lines ++ [
              "Continue guiding through \x27" ++ current_skill ++ "\x27.",
              "Questions asked so far for this skill: " ++ toString q_count]
            if q_count ≥ 4 then
              lines ++ [
                "IMPORTANT: The student has likely demonstrated this skill.",
                "Your task now is to acknowledge their effort briefly.",
                "If needed, ask AT MOST ONE final, narrow question that can be answered in one sentence.",
                "Otherwise, tell them they may click Continue."]
            else lines
        lines ++ ["The student will click \x27Continue\x27 when ready to move to the next skill."]
    else lines
  String.intercalate "\n" lines

/-! ## Turn handlers (`chat/views.py`)

Each handler returns the committed database state (the `Session` after every
`session.save()` / `Message.objects.create` that executed) together with
`none` when a collaborator failed mid-handler, so partial commits are
observable. -/

/-- The evidence-tracking prefix of `student_response` plus the `call_model`
argument tuple it then builds: strip the message, persist it under the
current evidence key when the phase is `source_loop` and the stripped
message is non-empty, then build the history window (limited to the current
skill), append the student turn, and request generation with skills and
historical context included unconditionally. -/
def student_response_call (session : Session) (raw_message : String) :
    Session × GenCall :=
  let student_message := pyStrip raw_message
  let current_phase := session.data.current_phase
  let session :=
    if current_phase = "source_loop" ∧ student_message ≠ "" then
      let key := evKey session.data.source_index session.data.skill_index
      let ev := evidenceAppend session.data.skill_evidence key student_message
      { session with data := { session.data with skill_evidence := ev } }
    else session
  let history := build_conversation_history session true ++
    [{ role := "user", content := student_message }]
  let session_context := build_session_context session false
  (session,
   { messages_history := history,
     include_skills := true,
     include_context := true,
     session_context := some session_context })

/-- `views.student_response`: evidence save, generation, question-counter
update when the reply contains a question mark in `source_loop`, and the
message-pair append. A generation failure leaves the already-saved evidence
committed and appends nothing. -/
def student_response (gen : GenCall → Option String) (session : Session)
    (raw_message : String) : Session × Option String :=
  let student_message := pyStrip raw_message
  let current_phase := session.data.current_phase
  let (session, call) := student_response_call session raw_message
  match gen call with
  | none => (session, none)
  | some ai_response =>
    let session :=
      if current_phase = "source_loop" ∧ strContains ai_response "?" then
        let q := session.data.questions_asked_this_skill + 1
        { session with data := { session.data with questions_asked_this_skill := q } }
      else session
    let pair : Msg :=
      { reqMessage := some student_message, reqPhase := current_phase,
        reqSourceIndex := none, reqSkillIndex := none,
        respMessage := ai_response }
    let session := { session with messages := session.messages ++ [pair] }
    (session, some ai_response)

/-- The `session_data` written by `views.start_session`
(`questions_asked_this_skill` is absent in the stored dict and reads as the
default `0`). -/
def initSessionData : SessionData :=
  { current_phase := "intro", source_index := 0, skill_index := 0,
    skill_evidence := [], questions_asked_this_skill := 0 }

/-- `views.start_session`: create the session record, generate the intro
welcome (no skills, no historical context), and persist it as the first
message. -/
def start_session (gen : GenCall → Option String) (assignment : Assignment) :
    Session × Option String :=
  let session : Session := { assignment := assignment, data := initSessionData,
                             messages := [] }
  let session_context := build_session_context session false
  match gen { messages_history := [], include_skills := false,
              include_context := false,
              session_context := some session_context } with
  | none => (session, none)
  | some ai_intro =>
    let first : Msg :=
      { reqMessage := none, reqPhase := "intro", reqSourceIndex := none,
        reqSkillIndex := none, respMessage := ai_intro }
    ({ session with messages := [first] }, some ai_intro)

/-- Result payload of `views.advance_phase` (the JSON response shapes of its
four return paths). -/
inductive AdvanceResult where
  | introStarted (ai_message current_skill current_skill_description : String)
  | blocked (ai_message current_skill : String)
  | completed (ai_message : String)
  | advanced (source_index skill_index : Nat)
      (ai_message previous_skill current_skill : String)
  | unrecognized (next_phase : String)
deriving DecidableEq

/-- Intro branch of `advance_phase` up to the generation call: persist
`phase=source_loop` with indices `(0, 0)`, then build the generation call,
gating historical context on `should_include_context(skills[0])`
(false when the skill list is empty). -/
def advance_intro_call (session : Session) : Session × GenCall :=
  let data :=
    { session.data with
        current_phase := "source_loop", source_index := 0, skill_index := 0 }
  let session := { session with data := data }
  let session_context := build_session_context session true
  let include_context :=
    match session.assignment.requirement.skills_to_target with
    | [] => false
    | skill0 :: _ => should_include_context skill0
  (session,
   { messages_history := [], include_skills := true,
     include_context := include_context, session_context := some session_context })

/-- Generation call of the blocked-advancement branch: full-session history,
historical context included unconditionally, and the internal mastery note
appended to the session context. -/
def advance_blocked_call (session : Session) (current_skill reasoning : String) :
    GenCall :=
  let session_context := build_session_context session false ++
    "\n\n[INTERNAL NOTE - Don\x27t mention this to student]" ++
    "\nMastery check: Student hasn\x27t fully demonstrated \x27" ++ current_skill ++
      "\x27 yet." ++
    "\nReasoning: " ++ reasoning ++
    "\nYour task: Acknowledge their effort, then ask ONE focused question to help them go deeper on this skill."
  { messages_history := build_conversation_history session false,
    include_skills := true, include_context := true,
    session_context := some session_context }

/-- Generation call of the permitted-advancement branch, issued after the new
indices were persisted: empty history, historical context included
unconditionally, transition session context. -/
def advance_transition_call (session : Session) : GenCall :=
  { messages_history := [], include_skills := true, include_context := true,
    session_context := some (build_session_context session true) }

/-- The `source_loop` branch of `views.advance_phase`: mastery check on the
current attempt's evidence plus the recent excerpt; blocked verdict appends a
guidance turn without touching indices; mastered verdict advances
`(source_index, skill_index)`, completing the session when the sources are
exhausted (persisting only the phase change) and otherwise persisting the new
indices with a reset question counter before generating the transition turn.
`skills[skill_index]` out of range and collaborator failures yield `none`
alongside the state committed so far. -/
def advance_source_loop (gen : GenCall → Option String)
    (judge : String → String → List String → Option String → Option MasteryResult)
    (session : Session) : Session × Option AdvanceResult :=
  let skill_index := session.data.skill_index
  let source_index := session.data.source_index
  let skills := session.assignment.requirement.skills_to_target
  let sources := session.assignment.sources
  let key := evKey source_index skill_index
  let evidence := evidenceGet session.data.skill_evidence key
  let conversation_excerpt := get_recent_conversation_excerpt session 4
  match skills.get? skill_index with
  | none => (session, none)
  | some current_skill =>
    match evaluate_skill_mastery judge current_skill
        session.assignment.requirement.student_proficiency evidence
        conversation_excerpt with
    | none => (session, none)
    | some mastery_result =>
      if ¬ mastery_result.is_mastered then
        match gen (advance_blocked_call session current_skill
            mastery_result.reasoning) with
        | none => (session, none)
        | some ai_followup =>
          let pair : Msg :=
            { reqMessage := some "[Attempted to advance]",
              reqPhase := "source_loop", reqSourceIndex := none,
              reqSkillIndex := none, respMessage := ai_followup }
          let session := { session with messages := session.messages ++ [pair] }
          (session, some (.blocked ai_followup current_skill))
      else
        let prev_skill := current_skill
        let skill_index := skill_index + 1
        let next : Nat × Nat :=
          if skill_index ≥ skills.length then (0, source_index + 1)
          else (skill_index, source_index)
        let skill_index := next.1
        let source_index := next.2
        if source_index ≥ sources.length then
          let data := { session.data with current_phase := "complete" }
          let session := { session with data := data }
          (session, some (.completed
            "Excellent work! You\x27ve completed all the sources and demonstrated strong historical thinking skills."))
        else
          let data :=
            { session.data with
                skill_index := skill_index, source_index := source_index,
                questions_asked_this_skill := 0 }
          let session := { session with data := data }
          match gen (advance_transition_call session) with
          | none => (session, none)
          | some ai_message =>
            let marker : Msg :=
              { reqMessage := none, reqPhase := "source_loop",
                reqSourceIndex := some source_index,
                reqSkillIndex := some skill_index,
                respMessage := ai_message }
            let session := { session with messages := session.messages ++ [marker] }
            (session, some (.advanced source_index skill_index ai_message
              prev_skill (skills.getD skill_index "Unknown")))

/-- `views.advance_phase`: dispatch on the current phase — intro branch,
`source_loop` branch, and the fall-through branch that answers
`Phase not recognized.` without touching any state. -/
def advance_phase (gen : GenCall → Option String)
    (judge : String → String → List String → Option String → Option MasteryResult)
    (session : Session) : Session × Option AdvanceResult :=
  let current_phase := session.data.current_phase
  if current_phase = "intro" then
    let (session, call) := advance_intro_call session
    match gen call with
    | none => (session, none)
    | some ai_message =>
      let skills := session.assignment.requirement.skills_to_target
      let marker : Msg :=
        { reqMessage := none, reqPhase := "source_loop",
          reqSourceIndex := some 0, reqSkillIndex := some 0,
          respMessage := ai_message }
      let session := { session with messages := session.messages ++ [marker] }
      let current_skill := skills.headD "Unknown"
      (session, some (.introStarted ai_message current_skill
        (skillDefinitions current_skill)))
  else if current_phase = "source_loop" then
    advance_source_loop gen judge session
  else
    (session, some (.unrecognized current_phase))

/-! ## Concrete fixtures

A small assignment (the two-skill scenario of the design document's testable
properties) and constant collaborator oracles, used for counterexamples and
witnesses. All sessions below are built through the handlers themselves, so
they are reachable states of the engine. -/

/-- Two-skill requirement from the design document's scenario. -/
def sampleRequirement : Requirement :=
  { topic := "Taxes", guiding_question := "Why did taxes rise?",
    student_proficiency := "beginner",
    skills_to_target := ["Comprehension", "Sourcing"] }

/-- A single concrete source. -/
def sampleSource : SourceDoc :=
  { title := "Edict", author := "Scribe", year := "1300", text := "Taxes rose." }

/-- One source, two skills. -/
def sampleAssignment : Assignment :=
  { requirement := sampleRequirement, sources := [sampleSource] }

/-- One source, one skill (shortest run to completion). -/
def oneSkillAssignment : Assignment :=
  { requirement := { sampleRequirement with skills_to_target := ["Comprehension"] },
    sources := [sampleSource] }

/-- Generation collaborator that always replies `ok`. -/
def genOk : GenCall → Option String := fun _ => some "ok"

/-- Generation collaborator that always fails (GenerationError). -/
def genFail : GenCall → Option String := fun _ => none

/-- Generation collaborator that replies with the empty string. -/
def genEmpty : GenCall → Option String := fun _ => some ""

/-- Judgment collaborator that always judges the skill mastered. -/
def judgeYes : String → String → List String → Option String → Option MasteryResult :=
  fun _ _ _ _ => some { is_mastered := true, reasoning := "ok" }

/-- Judgment collaborator that always judges the skill not mastered. -/
def judgeNo : String → String → List String → Option String → Option MasteryResult :=
  fun _ _ _ _ => some { is_mastered := false, reasoning := "not yet" }

/-- Fresh two-skill session, phase `intro`. -/
def introSession : Session := (start_session genOk sampleAssignment).1

/-- After the begin signal: phase `source_loop`, indices `(0, 0)`. -/
def loopSession : Session := (advance_phase genOk judgeYes introSession).1

/-- After one content turn: one evidence entry under key `0_0`. -/
def evidenceSession : Session :=
  (student_response genOk loopSession "The author says taxes rose.").1

/-- One-skill run up to the last content turn before completion. -/
def oneSkillEvidenceSession : Session :=
  (student_response genOk
    (advance_phase genOk judgeYes (start_session genOk oneSkillAssignment).1).1
    "The author says taxes rose.").1

/-- One-skill session after the completing advance: phase `complete`. -/
def completeSession : Session :=
  (advance_phase genOk judgeYes oneSkillEvidenceSession).1

/-- A reachable two-skill session whose intro welcome happened to be the
empty string: its transition marker is at position 1 but everything before
the marker flattens to nothing. -/
def emptyWelcomeSession : Session :=
  (advance_phase genOk judgeYes (start_session genEmpty sampleAssignment).1).1

/-! ## Association-list lemmas for the evidence dict -/

/-- `find?` by key commutes with mapping a key-preserving function. -/
theorem find?_map_keyFst (f : (String × List String) → (String × List String))
    (hf : ∀ p, (f p).1 = p.1) (key : String) (ev : List (String × List String)) :
    (ev.map f).find? (fun p => p.1 == key) =
      (ev.find? (fun p => p.1 == key)).map f := by
  induction ev with
  | nil => rfl
  | cons p rest ih =>
    simp only [List.map_cons]
    by_cases hp : p.1 = key
    · rw [List.find?_cons_of_pos, List.find?_cons_of_pos]
      · rfl
      · simp [hp]
      · simp [hf, hp]
    · rw [List.find?_cons_of_neg, List.find?_cons_of_neg, ih]
      · simp [hp]
      · simp [hf, hp]

/-- The update function of `evidenceAppend` preserves keys. -/
theorem evidenceAppend_keyFst (key msg : String) :
    ∀ p : String × List String,
      ((fun p => if p.1 == key then (p.1, p.2 ++ [msg]) else p) p).1 = p.1 := by
  intro p
  by_cases h : p.1 = key <;> simp [h]

/-- Appending under a key leaves every other key's evidence unchanged. -/
theorem evidenceGet_append_ne (ev : List (String × List String)) (key key' msg : String)
    (h : key' ≠ key) :
    evidenceGet (evidenceAppend ev key msg) key' = evidenceGet ev key' := by
  unfold evidenceAppend
  split
  · unfold evidenceGet
    rw [find?_map_keyFst _ (evidenceAppend_keyFst key msg)]
    cases hfind : ev.find? (fun p => p.1 == key') with
    | none => rfl
    | some p =>
      have hp : p.1 = key' := by
        have := List.find?_some hfind
        simpa using this
      have : p.1 ≠ key := by rw [hp]; exact h
      simp [this]
  · unfold evidenceGet
    rw [List.find?_append]
    have : (([(key, [msg])] : List (String × List String)).find?
        (fun p => p.1 == key')) = none := by
      have hne : (key == key') = false := by
        simpa using Ne.symm h
      simp [List.find?, hne]
    simp [this]

/-- Appending under a key appends exactly one entry to that key's evidence. -/
theorem evidenceGet_append_self (ev : List (String × List String)) (key msg : String) :
    evidenceGet (evidenceAppend ev key msg) key = evidenceGet ev key ++ [msg] := by
  unfold evidenceAppend
  split
  case isTrue hhas =>
    unfold evidenceGet
    rw [find?_map_keyFst _ (evidenceAppend_keyFst key msg)]
    cases hfind : ev.find? (fun p => p.1 == key) with
    | none =>
      exfalso
      unfold evidenceHas at hhas
      obtain ⟨p, hmem, hp⟩ := List.any_eq_true.mp hhas
      have := List.find?_eq_none.mp hfind p hmem
      exact this hp
    | some p =>
      have hp : p.1 = key := by
        have := List.find?_some hfind
        simpa using this
      simp [hp]
  case isFalse hhas =>
    unfold evidenceGet
    rw [List.find?_append]
    have hnone : ev.find? (fun p => p.1 == key) = none := by
      rw [List.find?_eq_none]
      intro p hmem hp
      unfold evidenceHas at hhas
      exact hhas (List.any_eq_true.mpr ⟨p, hmem, hp⟩)
    simp [hnone, List.find?]

/-! ## Frame lemmas for the turn handlers -/

/-- The evidence-saving stage of `student_response` touches only
`skill_evidence`: assignment, phase, indices, question counter and transcript
are unchanged. -/
theorem student_response_call_frame (s : Session) (raw : String) :
    (student_response_call s raw).1.assignment = s.assignment ∧
    (student_response_call s raw).1.data.current_phase = s.data.current_phase ∧
    (student_response_call s raw).1.data.source_index = s.data.source_index ∧
    (student_response_call s raw).1.data.skill_index = s.data.skill_index ∧
    (student_response_call s raw).1.data.questions_asked_this_skill =
      s.data.questions_asked_this_skill ∧
    (student_response_call s raw).1.messages = s.messages := by
  unfold student_response_call
  dsimp only
  split <;> simp

/-- `student_response` never changes the assignment, phase or indices. -/
theorem student_response_frame (gen : GenCall → Option String) (s : Session)
    (raw : String) :
    (student_response gen s raw).1.assignment = s.assignment ∧
    (student_response gen s raw).1.data.current_phase = s.data.current_phase ∧
    (student_response gen s raw).1.data.source_index = s.data.source_index ∧
    (student_response gen s raw).1.data.skill_index = s.data.skill_index := by
  unfold student_response
  dsimp only
  obtain ⟨h1, h2, h3, h4, h5, h6⟩ := student_response_call_frame s raw
  split
  · exact ⟨h1, h2, h3, h4⟩
  · split <;> simp_all

/-- Outside `source_loop`, `student_response` changes neither the evidence
nor the question counter (the whole `session_data` is untouched). -/
theorem student_response_data_other (gen : GenCall → Option String) (s : Session)
    (raw : String) (h : s.data.current_phase ≠ "source_loop") :
    (student_response gen s raw).1.data = s.data := by
  unfold student_response student_response_call
  dsimp only
  repeat' split
  all_goals simp_all

/-- The `source_loop` branch of `advance_phase` never changes the evidence
dict or the assignment. -/
theorem advance_source_loop_evidence (gen : GenCall → Option String)
    (judge : String → String → List String → Option String → Option MasteryResult)
    (s : Session) :
    (advance_source_loop gen judge s).1.data.skill_evidence = s.data.skill_evidence ∧
    (advance_source_loop gen judge s).1.assignment = s.assignment := by
  unfold advance_source_loop
  dsimp only
  repeat' split
  all_goals simp

/-- `advance_phase` never changes the evidence dict or the assignment. -/
theorem advance_phase_evidence (gen : GenCall → Option String)
    (judge : String → String → List String → Option String → Option MasteryResult)
    (s : Session) :
    (advance_phase gen judge s).1.data.skill_evidence = s.data.skill_evidence ∧
    (advance_phase gen judge s).1.assignment = s.assignment := by
  unfold advance_phase advance_intro_call
  dsimp only
  repeat' split
  all_goals simp [advance_source_loop_evidence]

/-- With the phase at `source_loop`, `advance_phase` runs exactly its
`source_loop` branch. -/
theorem advance_phase_source_loop (gen : GenCall → Option String)
    (judge : String → String → List String → Option String → Option MasteryResult)
    (s : Session) (h : s.data.current_phase = "source_loop") :
    advance_phase gen judge s = advance_source_loop gen judge s := by
  unfold advance_phase
  dsimp only
  rw [h]
  simp

/-- With the phase at `complete`, `advance_phase` is the fall-through branch:
state untouched, `Phase not recognized.` result. -/
theorem advance_phase_complete_noop (gen : GenCall → Option String)
    (judge : String → String → List String → Option String → Option MasteryResult)
    (s : Session) (h : s.data.current_phase = "complete") :
    advance_phase gen judge s = (s, some (.unrecognized "complete")) := by
  unfold advance_phase
  dsimp only
  rw [h]
  simp

/-! ## Reachable states and the index invariant -/

/-- Sessions reachable through the engine: created by `start_session` and
evolved by `student_response` (submitUtterance) and `advance_phase`
(requestAdvance), under arbitrary collaborator behaviour, including
failures. -/
inductive Reachable (assignment : Assignment) : Session → Prop
  | start (gen : GenCall → Option String) :
      Reachable assignment (start_session gen assignment).1
  | turn (gen : GenCall → Option String) (raw : String) {s : Session} :
      Reachable assignment s →
      Reachable assignment (student_response gen s raw).1
  | advance (gen : GenCall → Option String)
      (judge : String → String → List String → Option String → Option MasteryResult)
      {s : Session} :
      Reachable assignment s →
      Reachable assignment (advance_phase gen judge s).1

/-- Both indices strictly within the assignment's lists. -/
def IndexInv (s : Session) : Prop :=
  s.data.skill_index < s.assignment.requirement.skills_to_target.length ∧
  s.data.source_index < s.assignment.sources.length

/-- `start_session` commits the fixed initial `session_data`. -/
theorem start_session_fst (gen : GenCall → Option String) (a : Assignment) :
    (start_session gen a).1.assignment = a ∧
    (start_session gen a).1.data = initSessionData := by
  unfold start_session
  dsimp only
  repeat' split
  all_goals simp

/-- Reachable sessions carry the assignment they were created from. -/
theorem reachable_assignment {a : Assignment} {s : Session}
    (h : Reachable a s) : s.assignment = a := by
  induction h with
  | start gen => exact (start_session_fst gen a).1
  | turn gen raw hr ih => rw [(student_response_frame gen _ raw).1, ih]
  | advance gen judge hr ih => rw [(advance_phase_evidence gen judge _).2, ih]

/-- The `source_loop` branch of `advance_phase` preserves the index
invariant (the completing advance leaves the indices untouched; a
non-completing advance persists indices that are in range by construction). -/
theorem advance_source_loop_index_inv (gen : GenCall → Option String)
    (judge : String → String → List String → Option String → Option MasteryResult)
    (s : Session) (hK : 0 < s.assignment.requirement.skills_to_target.length)
    (h : IndexInv s) : IndexInv (advance_source_loop gen judge s).1 := by
  unfold IndexInv at h ⊢
  unfold advance_source_loop
  dsimp only
  repeat' split
  all_goals simp_all

/-- `advance_phase` preserves the index invariant on assignments with at
least one skill and one source. -/
theorem advance_phase_index_inv (gen : GenCall → Option String)
    (judge : String → String → List String → Option String → Option MasteryResult)
    (s : Session) (hK : 0 < s.assignment.requirement.skills_to_target.length)
    (hS : 0 < s.assignment.sources.length)
    (h : IndexInv s) : IndexInv (advance_phase gen judge s).1 := by
  unfold advance_phase
  dsimp only
  split
  · unfold advance_intro_call
    dsimp only
    split <;> (unfold IndexInv; simp_all)
  · split
    · exact advance_source_loop_index_inv gen judge s hK h
    · exact h

/-! ## Phase-behaviour lemmas for `advance_phase` -/

/-- From `intro`, `advance_phase` always commits phase `source_loop` with
indices `(0, 0)` and an untouched question counter and evidence dict. -/
theorem advance_phase_from_intro (gen : GenCall → Option String)
    (judge : String → String → List String → Option String → Option MasteryResult)
    (s : Session) (h : s.data.current_phase = "intro") :
    (advance_phase gen judge s).1.data.current_phase = "source_loop" ∧
    (advance_phase gen judge s).1.data.source_index = 0 ∧
    (advance_phase gen judge s).1.data.skill_index = 0 ∧
    (advance_phase gen judge s).1.data.questions_asked_this_skill =
      s.data.questions_asked_this_skill := by
  unfold advance_phase advance_intro_call
  dsimp only
  rw [h]
  repeat' split
  all_goals simp_all

/-- From `source_loop`, `advance_phase` commits phase `source_loop` or
`complete`, never `intro`. -/
theorem advance_phase_from_source_loop_phase (gen : GenCall → Option String)
    (judge : String → String → List String → Option String → Option MasteryResult)
    (s : Session) (h : s.data.current_phase = "source_loop") :
    (advance_phase gen judge s).1.data.current_phase = "source_loop" ∨
    (advance_phase gen judge s).1.data.current_phase = "complete" := by
  rw [advance_phase_source_loop gen judge s h]
  unfold advance_source_loop
  dsimp only
  repeat' split
  all_goals simp_all

/-- Outside `intro` and `source_loop`, `advance_phase` touches nothing. -/
theorem advance_phase_other_noop (gen : GenCall → Option String)
    (judge : String → String → List String → Option String → Option MasteryResult)
    (s : Session) (h1 : s.data.current_phase ≠ "intro")
    (h2 : s.data.current_phase ≠ "source_loop") :
    advance_phase gen judge s =
      (s, some (.unrecognized s.data.current_phase)) := by
  unfold advance_phase
  dsimp only
  rw [if_neg h1, if_neg h2]

/-- Reachable sessions still in phase `intro` have a zero question counter. -/
theorem reachable_intro_counter {a : Assignment} {s : Session}
    (h : Reachable a s) :
    s.data.current_phase = "intro" → s.data.questions_asked_this_skill = 0 := by
  induction h with
  | start gen =>
    intro _
    rw [(start_session_fst gen a).2]
    rfl
  | @turn gen raw s hr ih =>
    intro hp
    have hf := student_response_frame gen s raw
    have hsp : s.data.current_phase = "intro" := hf.2.1.symm.trans hp
    have hdata := student_response_data_other gen s raw (by rw [hsp]; decide)
    rw [hdata]
    exact ih hsp
  | @advance gen judge s hr ih =>
    intro hp
    by_cases h1 : s.data.current_phase = "intro"
    · exact absurd hp (by
        have := (advance_phase_from_intro gen judge s h1).1
        rw [this]; decide)
    · by_cases h2 : s.data.current_phase = "source_loop"
      · rcases advance_phase_from_source_loop_phase gen judge s h2 with hc | hc <;>
          exact absurd hp (by rw [hc]; decide)
      · rw [advance_phase_other_noop gen judge s h1 h2]
        exact ih (by
          rw [advance_phase_other_noop gen judge s h1 h2] at hp
          exact hp)

/-! ## Claim C1 — index bounds -/

/-- C1 counterexample: the claim that `source_index` equals the source count
exactly when the phase is `complete` fails on the code. `completeSession` is
reached through the handlers (start, begin-advance, one content turn, one
mastered advance on a one-source, one-skill assignment); its completing
`advance_phase` persists only `current_phase = "complete"` and leaves the
stored `source_index` at `0`, although the assignment has `1` source. -/
theorem c1_completion_counterexample :
    completeSession.data.current_phase = "complete" ∧
    completeSession.assignment.sources.length = 1 ∧
    completeSession.data.source_index = 0 ∧
    completeSession.data.source_index ≠ completeSession.assignment.sources.length := by
  decide

/-- C1 (amended): for every reachable session state of an assignment with at
least one skill and one source, `skill_index` lies in `[0, skillCount)` and
`source_index` lies in `[0, sourceCount)` — in every phase. In particular the
state persisted by a completing `requestAdvance` keeps `source_index`
strictly below the source count; `source_index` never reaches it. -/
theorem c1_index_bounds (a : Assignment) (s : Session)
    (hK : 0 < a.requirement.skills_to_target.length)
    (hS : 0 < a.sources.length) (h : Reachable a s) :
    s.data.skill_index < a.requirement.skills_to_target.length ∧
    s.data.source_index < a.sources.length := by
  have hinv : IndexInv s := by
    induction h with
    | start gen =>
      have hfst := start_session_fst gen a
      unfold IndexInv
      rw [hfst.1, hfst.2]
      exact ⟨hK, hS⟩
    | @turn gen raw s hr ih =>
      obtain ⟨h1, h2, h3, h4⟩ := student_response_frame gen s raw
      unfold IndexInv at ih ⊢
      rw [h1, h3, h4]
      exact ih
    | @advance gen judge s hr ih =>
      have ha := reachable_assignment hr
      exact advance_phase_index_inv gen judge s (ha.symm ▸ hK) (ha.symm ▸ hS) ih
  unfold IndexInv at hinv
  rw [reachable_assignment h] at hinv
  exact hinv

/-- C1 witness: the bounds hold at the concrete reachable intro session of
the two-skill sample assignment. -/
theorem c1_index_bounds_witness :
    introSession.data.skill_index <
      sampleAssignment.requirement.skills_to_target.length ∧
    introSession.data.source_index < sampleAssignment.sources.length :=
  c1_index_bounds sampleAssignment introSession (by decide) (by decide)
    (Reachable.start genOk)

/-! ## Claim C2 — empty evidence blocks without the judge -/

/-- C2: for every skill, proficiency and excerpt, `evaluate_skill_mastery` on
an empty evidence list returns the fixed not-mastered verdict, and the result
does not depend on the judgment collaborator at all (it is never invoked). -/
theorem c2_empty_evidence_blocks
    (judge judge' : String → String → List String → Option String → Option MasteryResult)
    (skill proficiency : String) (excerpt : Option String) :
    evaluate_skill_mastery judge skill proficiency [] excerpt =
      some { is_mastered := false,
             reasoning := "No evidence yet - student hasn\x27t engaged with the skill." } ∧
    evaluate_skill_mastery judge skill proficiency [] excerpt =
      evaluate_skill_mastery judge' skill proficiency [] excerpt := by
  exact ⟨rfl, rfl⟩

/-! ## Claim C3 — monotone advancement -/

/-- C3: in phase `source_loop`, a blocked `requestAdvance` leaves both
indices unchanged, a permitted `requestAdvance` that moves on never
decreases `(source_index, skill_index)` lexicographically, and a permitted
`requestAdvance` that completes the session leaves both indices unchanged
(hence also no lexicographic decrease). -/
theorem c3_advance_monotonic (gen : GenCall → Option String)
    (judge : String → String → List String → Option String → Option MasteryResult)
    (s : Session) (h : s.data.current_phase = "source_loop") :
    (∀ m c, (advance_phase gen judge s).2 = some (.blocked m c) →
      (advance_phase gen judge s).1.data.source_index = s.data.source_index ∧
      (advance_phase gen judge s).1.data.skill_index = s.data.skill_index) ∧
    (∀ i j m p c, (advance_phase gen judge s).2 = some (.advanced i j m p c) →
      s.data.source_index < (advance_phase gen judge s).1.data.source_index ∨
        (s.data.source_index = (advance_phase gen judge s).1.data.source_index ∧
          s.data.skill_index ≤ (advance_phase gen judge s).1.data.skill_index)) ∧
    (∀ m, (advance_phase gen judge s).2 = some (.completed m) →
      (advance_phase gen judge s).1.data.source_index = s.data.source_index ∧
      (advance_phase gen judge s).1.data.skill_index = s.data.skill_index) := by
  rw [advance_phase_source_loop gen judge s h]
  unfold advance_source_loop
  dsimp only
  repeat' split
  all_goals refine ⟨?_, ?_, ?_⟩
  all_goals intro
  all_goals simp_all
  all_goals omega

/-- C3 witness: a concrete blocked advance (judge never satisfied) on the
reachable session with one evidence entry leaves both indices unchanged. -/
theorem c3_advance_monotonic_witness :
    (advance_phase genOk judgeNo evidenceSession).1.data.source_index =
      evidenceSession.data.source_index ∧
    (advance_phase genOk judgeNo evidenceSession).1.data.skill_index =
      evidenceSession.data.skill_index :=
  (c3_advance_monotonic genOk judgeNo evidenceSession (by decide)).1 "ok"
    "Comprehension" (by decide)

/-! ## Claim C4 — no partial commit on collaborator failure -/

/-- C4 (exhibiting the code bug): on a content turn in `source_loop`, the
student's evidence is persisted *before* the generation call, so a
generation failure leaves the Session State mutated while no Transcript
Entry is written; likewise a permitted advance persists the new indices
before the transition generation call, so a generation failure commits the
index change without its transcript entry. Both runs below start from
reachable sessions and use the always-failing generation collaborator. -/
theorem c4_partial_commit_on_generation_failure :
    ((student_response genFail loopSession "The author says taxes rose.").2 = none ∧
     (student_response genFail loopSession "The author says taxes rose.").1.data.skill_evidence ≠
       loopSession.data.skill_evidence ∧
     (student_response genFail loopSession "The author says taxes rose.").1.messages =
       loopSession.messages) ∧
    ((advance_phase genFail judgeYes evidenceSession).2 = none ∧
     (advance_phase genFail judgeYes evidenceSession).1.data.skill_index ≠
       evidenceSession.data.skill_index ∧
     (advance_phase genFail judgeYes evidenceSession).1.messages =
       evidenceSession.messages) := by
  decide

/-! ## Claim C5 — the history window is a suffix -/

/-- Flattening a dropped-prefix message list yields a suffix of flattening
the whole list. -/
theorem flatten_map_drop_suffix (f : Msg → List Chat) (l : List Msg) (i : Nat) :
    ((l.drop i).map f).flatten <:+ (l.map f).flatten := by
  conv_rhs => rw [← List.take_append_drop i l]
  rw [List.map_append, List.flatten_append]
  exact ⟨((l.take i).map f).flatten, rfl⟩

/-- C5 counterexample: the claim that current-skill-attempt mode is a
*strict* suffix of full-session mode fails. `emptyWelcomeSession` is reached
through the handlers (the intro welcome generated as the empty string, then
the begin advance); a transition marker for the current indices exists (at
position 1), yet the current-skill window equals the full-session window,
because everything before the marker flattens away. -/
theorem c5_strict_suffix_counterexample :
    build_conversation_history emptyWelcomeSession true =
      build_conversation_history emptyWelcomeSession false ∧
    emptyWelcomeSession.messages.findIdx?
      (isSkillStartMsg emptyWelcomeSession.data.source_index
        emptyWelcomeSession.data.skill_index) = some 1 ∧
    build_conversation_history emptyWelcomeSession false ≠ [] := by
  decide

/-- C5 (amended): the current-skill-attempt window is always a suffix (not
necessarily strict) of the full-session window — the scan keeps entries from
the first transition marker matching the current indices onward — and when no
such marker exists it falls back to exactly the full-session sequence.
Re-running on the same state trivially yields the same sequence, as the
windower is a pure function of the session state. -/
theorem c5_window_is_suffix (s : Session) :
    build_conversation_history s true <:+ build_conversation_history s false ∧
    (s.messages.findIdx?
        (isSkillStartMsg s.data.source_index s.data.skill_index) = none →
      build_conversation_history s true = build_conversation_history s false) := by
  unfold build_conversation_history
  dsimp only
  constructor
  · split
    · split
      · exact flatten_map_drop_suffix msgToChats s.messages _
      · exact List.suffix_refl _
    · exact List.suffix_refl _
  · intro hnone
    split
    · simp [hnone]
    · simp

/-- C5 witness: at the concrete intro session no marker exists and the two
windows coincide. -/
theorem c5_window_is_suffix_witness :
    build_conversation_history introSession true =
      build_conversation_history introSession false :=
  (c5_window_is_suffix introSession).2 (by decide)

/-! ## Claim C6 — the question counter -/

/-- The `source_loop` branch of `advance_phase` never returns the
intro-started payload. -/
theorem advance_source_loop_ne_introStarted (gen : GenCall → Option String)
    (judge : String → String → List String → Option String → Option MasteryResult)
    (s : Session) (m c d : String) :
    (advance_source_loop gen judge s).2 ≠ some (.introStarted m c d) := by
  unfold advance_source_loop
  dsimp only
  repeat' split
  all_goals simp

/-- An intro-started result comes only from phase `intro`. -/
theorem advance_phase_introStarted_phase (gen : GenCall → Option String)
    (judge : String → String → List String → Option String → Option MasteryResult)
    (s : Session) (m c d : String)
    (h : (advance_phase gen judge s).2 = some (.introStarted m c d)) :
    s.data.current_phase = "intro" := by
  by_contra hne
  by_cases h2 : s.data.current_phase = "source_loop"
  · rw [advance_phase_source_loop gen judge s h2] at h
    exact advance_source_loop_ne_introStarted gen judge s m c d h
  · rw [advance_phase_other_noop gen judge s hne h2] at h
    simp at h

/-- C6: in `source_loop`, a turn whose generated reply contains a question
mark increments `questions_asked_this_skill` by exactly one and a turn whose
reply contains none leaves it unchanged; every skill-attempt transition
committed by `requestAdvance` resets it to 0 — the advance that moves to a
new `(source_index, skill_index)` stores 0, and the begin transition of a
reachable session leaves the counter at its initial 0. -/
theorem c6_question_counter :
    (∀ (gen : GenCall → Option String) (s : Session) (raw reply : String),
      s.data.current_phase = "source_loop" →
      (student_response gen s raw).2 = some reply →
      (student_response gen s raw).1.data.questions_asked_this_skill =
        s.data.questions_asked_this_skill +
          (if strContains reply "?" then 1 else 0)) ∧
    (∀ (gen : GenCall → Option String)
       (judge : String → String → List String → Option String → Option MasteryResult)
       (s : Session) (i j : Nat) (m p c : String),
      (advance_phase gen judge s).2 = some (.advanced i j m p c) →
      (advance_phase gen judge s).1.data.questions_asked_this_skill = 0) ∧
    (∀ (a : Assignment) (s : Session) (gen : GenCall → Option String)
       (judge : String → String → List String → Option String → Option MasteryResult)
       (m c d : String),
      Reachable a s →
      (advance_phase gen judge s).2 = some (.introStarted m c d) →
      (advance_phase gen judge s).1.data.questions_asked_this_skill = 0) := by
  refine ⟨?_, ?_, ?_⟩
  · intro gen s raw reply hphase hsome
    obtain ⟨h1, h2, h3, h4, h5, h6⟩ := student_response_call_frame s raw
    unfold student_response at *
    dsimp only at *
    revert hsome
    split
    · intro hsome
      simp at hsome
    · intro hsome
      simp only [Option.some.injEq] at hsome
      subst hsome
      rw [← h5]
      split
      · simp_all
      · simp_all
  · intro gen judge s i j m p c h
    revert h
    unfold advance_phase advance_source_loop
    dsimp only
    repeat' split
    all_goals intro h
    all_goals simp_all
  · intro a s gen judge m c d hreach hres
    have hintro := advance_phase_introStarted_phase gen judge s m c d hres
    rw [(advance_phase_from_intro gen judge s hintro).2.2.2]
    exact reachable_intro_counter hreach hintro

/-- C6 witness: a concrete question-free reply leaves the counter unchanged,
and the concrete mastered advance from `(0, 0)` to `(0, 1)` stores a zero
counter, as does the begin transition of the intro session. -/
theorem c6_question_counter_witness :
    (student_response genOk loopSession "hi").1.data.questions_asked_this_skill =
      loopSession.data.questions_asked_this_skill +
        (if strContains "ok" "?" then 1 else 0) ∧
    (advance_phase genOk judgeYes evidenceSession).1.data.questions_asked_this_skill = 0 ∧
    (advance_phase genOk judgeYes introSession).1.data.questions_asked_this_skill = 0 :=
  ⟨c6_question_counter.1 genOk loopSession "hi" "ok" (by decide) (by decide),
   c6_question_counter.2.1 genOk judgeYes evidenceSession 0 1 "ok" "Comprehension"
     "Sourcing" (by decide),
   c6_question_counter.2.2 sampleAssignment introSession genOk judgeYes "ok"
     "Comprehension" (skillDefinitions "Comprehension") (Reachable.start genOk)
     (by decide)⟩

/-! ## Claim C7 — behaviour in phase `complete` -/

/-- Outside `source_loop`, the evidence-saving stage commits nothing at all. -/
theorem student_response_call_other (s : Session) (raw : String)
    (h : s.data.current_phase ≠ "source_loop") :
    (student_response_call s raw).1 = s := by
  unfold student_response_call
  dsimp only
  rw [if_neg]
  intro hc
  exact h hc.1

/-- C7 counterexample: phase `complete` is not terminal for submitUtterance.
On the reachable completed session, a further `student_response` still calls
the generation collaborator and appends a new Transcript Entry, mutating the
transcript store. -/
theorem c7_complete_counterexample :
    completeSession.data.current_phase = "complete" ∧
    (student_response genOk completeSession "hello").1.messages ≠
      completeSession.messages ∧
    (student_response genOk completeSession "hello").1.messages.length =
      completeSession.messages.length + 1 := by
  decide

/-- C7 (amended): in phase `complete`, `requestAdvance` is a pure no-op
returning the current phase (`Phase not recognized.`), and `submitUtterance`
leaves the whole Session State (phase, indices, evidence, counter) unchanged
— but it still generates a reply and appends a Transcript Entry (on
generation failure it changes nothing at all). -/
theorem c7_complete_phase_behaviour :
    (∀ (gen : GenCall → Option String)
       (judge : String → String → List String → Option String → Option MasteryResult)
       (s : Session), s.data.current_phase = "complete" →
      advance_phase gen judge s = (s, some (.unrecognized "complete"))) ∧
    (∀ (gen : GenCall → Option String) (s : Session) (raw : String),
      s.data.current_phase = "complete" →
      (student_response gen s raw).1.data = s.data ∧
      ((student_response gen s raw).2 = none →
        (student_response gen s raw).1 = s) ∧
      (∀ reply, (student_response gen s raw).2 = some reply →
        (student_response gen s raw).1.messages = s.messages ++
          [{ reqMessage := some (pyStrip raw), reqPhase := "complete",
             reqSourceIndex := none, reqSkillIndex := none,
             respMessage := reply }])) := by
  constructor
  · intro gen judge s h
    exact advance_phase_complete_noop gen judge s h
  · intro gen s raw h
    have hne : s.data.current_phase ≠ "source_loop" := by rw [h]; decide
    have hcall := student_response_call_other s raw hne
    refine ⟨student_response_data_other gen s raw hne, ?_, ?_⟩
    · intro hnone
      unfold student_response at *
      dsimp only at *
      revert hnone
      split
      · intro _
        exact hcall
      · intro hnone
        simp at hnone
    · intro reply hsome
      unfold student_response at *
      dsimp only at *
      revert hsome
      split
      · intro hsome
        simp at hsome
      · intro hsome
        simp only [Option.some.injEq] at hsome
        subst hsome
        rw [if_neg (by intro hc; exact hne hc.1), hcall, h]

/-- C7 witness: on the concrete completed session, the advance is the exact
no-op and a further utterance leaves the session data untouched. -/
theorem c7_complete_phase_behaviour_witness :
    advance_phase genOk judgeYes completeSession =
      (completeSession, some (.unrecognized "complete")) ∧
    (student_response genOk completeSession "hello").1.data =
      completeSession.data :=
  ⟨c7_complete_phase_behaviour.1 genOk judgeYes completeSession (by decide),
   (c7_complete_phase_behaviour.2 genOk completeSession "hello" (by decide)).1⟩

/-! ## Claim C8 — gate purity vs. advance idempotence -/

/-- C8 counterexample: two immediately successive `requestAdvance` calls with
identical collaborators, no intervening `submitUtterance`, and an unchanged
evidence mapping still yield different verdicts. On the reachable
`evidenceSession` (two skills, evidence only under key `0_0`) the first
advance is permitted, moving to skill `(0, 1)`; the second is blocked, since
the new attempt's evidence list is empty. -/
theorem c8_idempotence_counterexample :
    (advance_phase genOk judgeYes evidenceSession).2 =
      some (.advanced 0 1 "ok" "Comprehension" "Sourcing") ∧
    (advance_phase genOk judgeYes
        (advance_phase genOk judgeYes evidenceSession).1).2 =
      some (.blocked "ok" "Sourcing") ∧
    (advance_phase genOk judgeYes evidenceSession).1.data.skill_evidence =
      evidenceSession.data.skill_evidence := by
  decide

/-- C8 (amended): the Mastery Gate verdict is a pure function of skill,
proficiency, evidence list and excerpt — equal inputs give the same verdict;
`requestAdvance` itself never modifies the evidence mapping, and a blocked
`requestAdvance` leaves the whole `session_data` unchanged. Two successive
advances therefore agree whenever the current indices, the current attempt's
evidence and the recent-conversation excerpt are all unchanged; they may
disagree otherwise (the blocked path appends a guidance transcript entry
that shifts the excerpt, and a permitted advance changes the indices). -/
theorem c8_gate_purity :
    (∀ (judge : String → String → List String → Option String → Option MasteryResult)
       (skill proficiency : String) (evidence evidence' : List String)
       (excerpt excerpt' : Option String),
      evidence = evidence' → excerpt = excerpt' →
      evaluate_skill_mastery judge skill proficiency evidence excerpt =
        evaluate_skill_mastery judge skill proficiency evidence' excerpt') ∧
    (∀ (gen : GenCall → Option String)
       (judge : String → String → List String → Option String → Option MasteryResult)
       (s : Session),
      (advance_phase gen judge s).1.data.skill_evidence = s.data.skill_evidence) ∧
    (∀ (gen : GenCall → Option String)
       (judge : String → String → List String → Option String → Option MasteryResult)
       (s : Session) (m c : String),
      (advance_phase gen judge s).2 = some (.blocked m c) →
      (advance_phase gen judge s).1.data = s.data) := by
  refine ⟨?_, ?_, ?_⟩
  · intro judge skill proficiency evidence evidence' excerpt excerpt' h1 h2
    rw [h1, h2]
  · intro gen judge s
    exact (advance_phase_evidence gen judge s).1
  · intro gen judge s m c h
    revert h
    unfold advance_phase advance_source_loop
    dsimp only
    repeat' split
    all_goals intro h
    all_goals simp_all

/-- C8 witness: the purity instance at concrete inputs, and the concrete
blocked advance leaving the session data unchanged. -/
theorem c8_gate_purity_witness :
    evaluate_skill_mastery judgeNo "Comprehension" "beginner"
        ["The author says taxes rose."] none =
      evaluate_skill_mastery judgeNo "Comprehension" "beginner"
        ["The author says taxes rose."] none ∧
    (advance_phase genOk judgeNo evidenceSession).1.data =
      evidenceSession.data :=
  ⟨c8_gate_purity.1 judgeNo "Comprehension" "beginner" _ _ _ _ rfl rfl,
   c8_gate_purity.2.2 genOk judgeNo evidenceSession "ok" "Comprehension"
     (by decide)⟩

/-! ## Claim C9 — when historical context is included -/

/-- C9 counterexample: on the reachable `source_loop` session whose active
skill is `Comprehension` (for which `should_include_context` is false), the
content-turn handler still builds its generation call with
`include_context = true` — the skill-gated predicate is bypassed. -/
theorem c9_include_context_counterexample :
    loopSession.data.current_phase = "source_loop" ∧
    loopSession.assignment.requirement.skills_to_target.get?
      loopSession.data.skill_index = some "Comprehension" ∧
    should_include_context "Comprehension" = false ∧
    (student_response_call loopSession "What does the author say?").2.include_context =
      true := by
  decide

/-- C9 (amended): the content-turn, blocked-advance and post-advance
transition generation calls all set `include_context` unconditionally to
true; only the intro→source_loop transition consults
`should_include_context` on the first skill, and that predicate holds
exactly when the lowercased skill name contains `context` or `sourcing`. -/
theorem c9_include_context_flags :
    (∀ (s : Session) (raw : String),
      (student_response_call s raw).2.include_context = true) ∧
    (∀ (s : Session) (current_skill reasoning : String),
      (advance_blocked_call s current_skill reasoning).include_context = true) ∧
    (∀ s : Session, (advance_transition_call s).include_context = true) ∧
    (∀ (s : Session) (skill0 : String) (rest : List String),
      s.assignment.requirement.skills_to_target = skill0 :: rest →
      (advance_intro_call s).2.include_context = should_include_context skill0) ∧
    (∀ skill : String, should_include_context skill =
      (strContains (lowerStr skill) "context" ||
        strContains (lowerStr skill) "sourcing")) := by
  refine ⟨?_, ?_, ?_, ?_, ?_⟩
  · intro s raw
    rfl
  · intro s current_skill reasoning
    rfl
  · intro s
    rfl
  · intro s skill0 rest h
    unfold advance_intro_call
    dsimp only
    rw [h]
  · intro skill
    rfl

/-- C9 witness: the content-turn flag at a concrete call, and the intro
transition computing the flag from the first skill. -/
theorem c9_include_context_flags_witness :
    (student_response_call loopSession "hi").2.include_context = true ∧
    (advance_intro_call introSession).2.include_context =
      should_include_context "Comprehension" :=
  ⟨c9_include_context_flags.1 loopSession "hi",
   c9_include_context_flags.2.2.2.1 introSession "Comprehension" ["Sourcing"]
     (by decide)⟩

/-! ## Claim C10 — evidence growth per utterance -/

/-- C10: an utterance that strips to the empty string leaves the evidence
mapping completely untouched in every phase (no key created, nothing
appended); in any phase other than `source_loop` the mapping is untouched
regardless of the message; and in `source_loop` a non-empty stripped
utterance makes exactly the `setdefault`/append update under the current
key, growing that key's list by exactly one entry. -/
theorem c10_evidence_update :
    (∀ (gen : GenCall → Option String) (s : Session) (raw : String),
      pyStrip raw = "" →
      (student_response gen s raw).1.data.skill_evidence = s.data.skill_evidence) ∧
    (∀ (gen : GenCall → Option String) (s : Session) (raw : String),
      s.data.current_phase ≠ "source_loop" →
      (student_response gen s raw).1.data.skill_evidence = s.data.skill_evidence) ∧
    (∀ (gen : GenCall → Option String) (s : Session) (raw : String),
      s.data.current_phase = "source_loop" → pyStrip raw ≠ "" →
      (student_response gen s raw).1.data.skill_evidence =
        evidenceAppend s.data.skill_evidence
          (evKey s.data.source_index s.data.skill_index) (pyStrip raw) ∧
      evidenceGet (student_response gen s raw).1.data.skill_evidence
          (evKey s.data.source_index s.data.skill_index) =
        evidenceGet s.data.skill_evidence
          (evKey s.data.source_index s.data.skill_index) ++ [pyStrip raw]) := by
  refine ⟨?_, ?_, ?_⟩
  · intro gen s raw h
    unfold student_response student_response_call
    dsimp only
    repeat' split
    all_goals simp_all
  · intro gen s raw h
    unfold student_response student_response_call
    dsimp only
    repeat' split
    all_goals simp_all
  · intro gen s raw h1 h2
    have hev : (student_response gen s raw).1.data.skill_evidence =
        evidenceAppend s.data.skill_evidence
          (evKey s.data.source_index s.data.skill_index) (pyStrip raw) := by
      unfold student_response student_response_call
      dsimp only
      repeat' split
      all_goals simp_all
    exact ⟨hev, by rw [hev, evidenceGet_append_self]⟩

/-- C10 witness: a whitespace-only message changes nothing, an intro-phase
message changes nothing, and the concrete content turn grows key `0_0` by
exactly its stripped message. -/
theorem c10_evidence_update_witness :
    (student_response genOk loopSession "   ").1.data.skill_evidence =
      loopSession.data.skill_evidence ∧
    (student_response genOk introSession "hi").1.data.skill_evidence =
      introSession.data.skill_evidence ∧
    evidenceGet
        (student_response genOk loopSession
          "The author says taxes rose.").1.data.skill_evidence
        (evKey loopSession.data.source_index loopSession.data.skill_index) =
      evidenceGet loopSession.data.skill_evidence
        (evKey loopSession.data.source_index loopSession.data.skill_index) ++
        [pyStrip "The author says taxes rose."] :=
  ⟨c10_evidence_update.1 genOk loopSession "   " (by decide),
   c10_evidence_update.2.1 genOk introSession "hi" (by decide),
   (c10_evidence_update.2.2 genOk loopSession "The author says taxes rose."
     (by decide) (by decide)).2⟩
